import Mathlib

/-!
Shallow embedding of the nifinova trading-dashboard server
(src/shared/schema.ts, src/server/storage.ts, src/server/routes.ts,
src/server/services/whatsapp.ts, which concatenates WhatsAppService,
AISignalsService and ZerodhaService).

Modelling conventions:
- JS `Map` objects keyed by a monotonically allocated id are modelled as
  lists in insertion order (Map iteration order in JS is insertion order,
  and `Map.set` with a fresh key appends).
- `Date` timestamps are modelled as natural numbers supplied by the caller.
- JS numbers that only ever hold integers are `Int`/`Nat`; numbers carrying
  fractional mock-market values are `Rat`.
- Every call to `Math.random()` is modelled as an explicit `Rat` parameter
  (a random tape), one per call site, threaded in call order.
- `async` functions that cannot reject are total functions; a function whose
  body can `throw` is embedded through `Except` with the `catch` block
  applied explicitly.
-/

/-- Data model of `users` (src/shared/schema.ts). -/
structure User where
  id : Nat
  username : String
  password : String
deriving Repr, DecidableEq

/-- Data model of `whatsapp_users` (src/shared/schema.ts). -/
structure WhatsappUser where
  id : Nat
  phoneNumber : String
  isActive : Bool
  createdAt : Nat
deriving Repr, DecidableEq

/-- Data model of `trading_signals` (src/shared/schema.ts). Decimal columns
are strings in the TS runtime objects (the generator stores `toString` /
`toFixed(2)` output), so they are `String` here as well. -/
structure TradingSignal where
  id : Nat
  type : String
  strikePrice : String
  targetPrice : String
  stopLoss : String
  confidence : Int
  reasoning : String
  expiryDate : Nat
  isActive : Bool
  whatsappSent : Bool
  createdAt : Nat
deriving Repr, DecidableEq

/-- `InsertTradingSignal` = trading signal minus `id`/`createdAt`
(insert schema omits them; `isActive`/`whatsappSent` are present in the
objects the generator pushes). -/
structure InsertTradingSignal where
  type : String
  strikePrice : String
  targetPrice : String
  stopLoss : String
  confidence : Int
  reasoning : String
  expiryDate : Nat
  isActive : Bool
  whatsappSent : Bool
deriving Repr, DecidableEq

/-- Data model of `portfolio_positions` (src/shared/schema.ts). -/
structure PortfolioPosition where
  id : Nat
  symbol : String
  type : String
  strikePrice : String
  quantity : Int
  entryPrice : String
  currentPrice : String
  pnl : String
  isActive : Bool
  createdAt : Nat
deriving Repr, DecidableEq

/-- Data model of `market_data` (src/shared/schema.ts). -/
structure MarketData where
  id : Nat
  symbol : String
  price : String
  change : String
  changePercent : String
  volume : Int
  lastUpdated : Nat
deriving Repr, DecidableEq

/-- Data model of `options_chain` (src/shared/schema.ts). -/
structure OptionsChain where
  id : Nat
  strikePrice : String
  callLTP : Option String
  callVolume : Option Int
  putLTP : Option String
  putVolume : Option Int
  expiryDate : Nat
  lastUpdated : Nat
deriving Repr, DecidableEq

/-- The in-memory store `MemStorage` (src/server/storage.ts, lines 38-70):
one map per entity plus one id allocator per entity. -/
structure MemStorage where
  users : List User
  whatsappUsers : List WhatsappUser
  tradingSignals : List TradingSignal
  portfolioPositions : List PortfolioPosition
  marketData : List (String × MarketData)
  optionsChain : List (String × OptionsChain)
  currentUserId : Nat
  currentWhatsappUserId : Nat
  currentSignalId : Nat
  currentPositionId : Nat
  currentMarketDataId : Nat
  currentOptionsChainId : Nat
deriving Repr, DecidableEq

namespace MemStorage

/-- The store as built by the first half of the constructor, before the
seeding call (all maps empty, all allocators at 1). -/
def emptyStorage : MemStorage :=
  { users := [], whatsappUsers := [], tradingSignals := [],
    portfolioPositions := [], marketData := [], optionsChain := [],
    currentUserId := 1, currentWhatsappUserId := 1, currentSignalId := 1,
    currentPositionId := 1, currentMarketDataId := 1, currentOptionsChainId := 1 }

/-- `MemStorage.createUser` (storage.ts lines 81-86). -/
def createUser (st : MemStorage) (username password : String) :
    MemStorage × User :=
  let id := st.currentUserId
  let user : User := { id := id, username := username, password := password }
  ({ st with users := st.users ++ [user], currentUserId := id + 1 }, user)

/-- The seeded store: the constructor ends with
`this.createUser({ username: "admin", password: "admin" })`
(storage.ts line 69). -/
def initStorage : MemStorage := (emptyStorage.createUser "admin" "admin").1

/-- `MemStorage.getUserByUsername` (storage.ts lines 77-79). -/
def getUserByUsername (st : MemStorage) (username : String) : Option User :=
  st.users.find? (fun u => u.username == username)

/-- `MemStorage.getAllWhatsappUsers` (storage.ts lines 89-91): list the
whatsapp-user map filtered to active records. -/
def getAllWhatsappUsers (st : MemStorage) : List WhatsappUser :=
  st.whatsappUsers.filter (fun u => u.isActive)

/-- `MemStorage.addWhatsappUser` (storage.ts lines 93-103): allocate an id,
insert a fresh active record with the given creation time. -/
def addWhatsappUser (st : MemStorage) (phoneNumber : String) (now : Nat) :
    MemStorage × WhatsappUser :=
  let id := st.currentWhatsappUserId
  let user : WhatsappUser :=
    { id := id, phoneNumber := phoneNumber, isActive := true, createdAt := now }
  ({ st with whatsappUsers := st.whatsappUsers ++ [user],
             currentWhatsappUserId := id + 1 }, user)

/-- In-place mutation `user.isActive = false` of the record that
`Array.from(map.values()).find(u => u.phoneNumber === p)` found: flip the
first record (in insertion order) whose phone number matches. -/
def deactivateFirst : List WhatsappUser → String → List WhatsappUser
  | [], _ => []
  | u :: us, p =>
      if u.phoneNumber == p then { u with isActive := false } :: us
      else u :: deactivateFirst us p

/-- `MemStorage.removeWhatsappUser` (storage.ts lines 105-112): find the
first record with the phone number (active or not); if found set its
active flag false and return true, else return false. -/
def removeWhatsappUser (st : MemStorage) (phoneNumber : String) :
    MemStorage × Bool :=
  match st.whatsappUsers.find? (fun u => u.phoneNumber == phoneNumber) with
  | some _ =>
      ({ st with whatsappUsers := deactivateFirst st.whatsappUsers phoneNumber },
       true)
  | none => (st, false)

/-- `MemStorage.createTradingSignal` (storage.ts lines 121-132): allocate an
id and insert; `isActive` is forced true and `whatsappSent` forced false by
the later spread properties, whatever the insert object carried. -/
def createTradingSignal (st : MemStorage) (s : InsertTradingSignal) (now : Nat) :
    MemStorage × TradingSignal :=
  let id := st.currentSignalId
  let signal : TradingSignal :=
    { id := id, type := s.type, strikePrice := s.strikePrice,
      targetPrice := s.targetPrice, stopLoss := s.stopLoss,
      confidence := s.confidence, reasoning := s.reasoning,
      expiryDate := s.expiryDate, isActive := true, whatsappSent := false,
      createdAt := now }
  ({ st with tradingSignals := st.tradingSignals ++ [signal],
             currentSignalId := id + 1 }, signal)

/-- In-place mutation `signal.whatsappSent = true` of the record
`map.get(id)` found: flip the first record with the id. -/
def setWhatsappSent : List TradingSignal → Nat → List TradingSignal
  | [], _ => []
  | s :: ss, i =>
      if s.id == i then { s with whatsappSent := true } :: ss
      else s :: setWhatsappSent ss i

/-- `MemStorage.updateSignalWhatsappSent` (storage.ts lines 134-141). -/
def updateSignalWhatsappSent (st : MemStorage) (id : Nat) :
    MemStorage × Bool :=
  match st.tradingSignals.find? (fun s => s.id == id) with
  | some _ =>
      ({ st with tradingSignals := setWhatsappSent st.tradingSignals id }, true)
  | none => (st, false)

end MemStorage

/-- Containment of `needle` as a contiguous run inside `hay`. -/
def containsSub (needle : List Char) : List Char → Bool
  | [] => needle.isEmpty
  | c :: t => needle.isPrefixOf (c :: t) || containsSub needle t

/-- `s.includes(sub)` on JS strings: substring containment. -/
def stringIncludes (s sub : String) : Bool :=
  containsSub sub.toList s.toList

/-- `phoneNumber.replace(/\D/g, "")`: keep only digit characters. -/
def cleanPhone (s : String) : String :=
  String.mk (s.toList.filter Char.isDigit)

namespace WhatsAppService

/-- The regex core `[6-9]\d{9}` anchored at both ends, on a list of
characters already known to be digits-only input. -/
def mobileCore : List Char → Bool
  | c :: rest =>
      (decide (c = Char.ofNat 54 ∨ c = Char.ofNat 55 ∨ c = Char.ofNat 56 ∨ c = Char.ofNat 57)
        || (Char.ofNat 54 ≤ c && c ≤ Char.ofNat 57))
      && rest.length == 9 && rest.all Char.isDigit
  | [] => false

/-- `WhatsAppService.validatePhoneNumber` (whatsapp.ts lines 106-111):
clean to digits, then test `^(\+91|91)?[6-9]\d{9}$`. On a digits-only
string the `\+91` alternative can never match, so the pattern is: an
optional literal "91" prefix, then a digit 6-9, then exactly nine digits.
(In the TS source this function is declared `async`, so the route that
calls it without `await` always sees a truthy Promise; the boolean here is
the value the Promise resolves to.) -/
def validatePhoneNumber (phoneNumber : String) : Bool :=
  let cs := (cleanPhone phoneNumber).toList
  mobileCore cs ||
    (match cs with
     | c1 :: c2 :: rest => c1 == Char.ofNat 57 && c2 == Char.ofNat 49 && mobileCore rest
     | _ => false)

/-- Network outcomes a live `fetch` to the WhatsApp API can have, as
distinguished by `makeRequest`: the fetch itself rejects, the response has
a non-ok status, `response.json()` rejects, or a body is parsed. The body
is left abstract (a string) because `makeRequest` returns it untouched. -/
inductive WaNetOutcome
  | fetchError
  | badStatus (code : Nat)
  | jsonError
  | ok (body : String)
deriving Repr, DecidableEq

/-- The three result shapes `makeRequest` can produce:
the no-credentials mock object with success and mockMode true, the
catch-block object with success true and the error attached, or the parsed
remote body. -/
inductive WaResult
  | mockSuccess
  | softError (msg : String)
  | remote (body : String)
deriving Repr, DecidableEq

/-- The `success` field of the returned object: `true` in both the mock and
the catch-block shapes; unconstrained (whatever the remote sent) on a
parsed live body. -/
def waSuccessFlag : WaResult → Option Bool
  | .mockSuccess => some true
  | .softError _ => some true
  | .remote _ => none

/-- `WhatsAppService.makeRequest` (whatsapp.ts lines 12-38). Credentials are
the constructor fields `accessToken` and `phoneNumberId`; the guard is
`!this.accessToken || !this.phoneNumberId` (empty string is falsy). The try
block is embedded as an `Except`; the catch block turns any thrown error
into `{ success: true, error }`. The outer result is `Except` so that a
propagated exception would be visible as `.error`; `makeRequest` never
produces one. -/
def makeRequest (accessToken phoneNumberId : String) (outcome : WaNetOutcome)
    (_data : String) : Except String WaResult :=
  if accessToken == "" || phoneNumberId == "" then
    Except.ok WaResult.mockSuccess
  else
    let attempt : Except String WaResult :=
      match outcome with
      | .fetchError => Except.error "fetch failed"
      | .badStatus code => Except.error ("WhatsApp API error: " ++ toString code)
      | .jsonError => Except.error "json parse failed"
      | .ok body => Except.ok (WaResult.remote body)
    match attempt with
    | Except.ok r => Except.ok r
    | Except.error e => Except.ok (WaResult.softError e)

/-- The signal payload `sendTradingSignal` receives (whatsapp.ts
lines 40-47). -/
structure SignalPayload where
  type : String
  strikePrice : String
  confidence : Int
  targetPrice : String
  stopLoss : String
  reasoning : String
deriving Repr, DecidableEq

/-- The message template of `sendTradingSignal` (whatsapp.ts lines 50-65). -/
def tradingSignalMessage (signal : SignalPayload) : String :=
  "🚨 *STRONG BUY SIGNAL* 🚨\n    \n📈 *" ++ signal.type ++
  "* Signal\n🎯 Strike: " ++ signal.strikePrice ++
  "\n💪 Confidence: " ++ toString signal.confidence ++
  "%\n\n📊 *Trade Details:*\n• Target: ₹" ++ signal.targetPrice ++
  "\n• Stop Loss: ₹" ++ signal.stopLoss ++
  "\n\n💡 *AI Analysis:*\n" ++ signal.reasoning ++
  "\n\n⚠️ *Risk Disclaimer:* Trading involves risk. Please trade responsibly.\n\nPowered by Nifty AI Trading Assistant"

/-- `WhatsAppService.sendTradingSignal` (whatsapp.ts lines 40-77): clean the
phone number, format the template, delegate to `makeRequest` with the
message body as the request data. -/
def sendTradingSignal (accessToken phoneNumberId : String)
    (outcome : WaNetOutcome) (phoneNumber : String) (signal : SignalPayload) :
    Except String WaResult :=
  makeRequest accessToken phoneNumberId outcome
    (cleanPhone phoneNumber ++ ":" ++ tradingSignalMessage signal)

end WhatsAppService

/-- The quote shape of the Zerodha API (whatsapp.ts lines 392-398). -/
structure ZerodhaQuote where
  instrument_token : Int
  last_price : Rat
  change : Rat
  net_change : Rat
  volume : Int
deriving Repr, DecidableEq

/-- A Zerodha response object: JSON keys mapping to quotes, in key order. -/
def ZResponse := List (String × ZerodhaQuote)
deriving Repr, DecidableEq

namespace ZerodhaService

/-- Network outcomes of a live `fetch` to the Zerodha API. -/
inductive ZNetOutcome
  | fetchError
  | badStatus (code : Nat)
  | ok (body : ZResponse)
deriving Repr

/-- One mock option leg consumes four `Math.random()` draws: last price,
change, net change, volume. -/
structure LegRand where
  pr : Rat
  ch : Rat
  nc : Rat
  vol : Rat
deriving Repr, DecidableEq

/-- The fixed NIFTY quote `getMockData` returns for endpoints containing
"quote" (whatsapp.ts lines 445-454). -/
def mockNiftyQuote : ZResponse :=
  [("256265",
    { instrument_token := 256265, last_price := (198453 : Rat) / 10,
      change := (781 : Rat) / 5, net_change := (79 : Rat) / 100,
      volume := 1234567 })]

/-- The fixed strike ladder hard-coded in `generateMockOptionsChain`
(whatsapp.ts line 463) - independent of any requested strikes. -/
def mockChainStrikes : List Int := [19750, 19800, 19850, 19900, 19950]

/-- `ZerodhaService.generateMockOptionsChain` (whatsapp.ts lines 462-485):
for each hard-coded strike, a `<strike>CE` and a `<strike>PE` entry with
randomized prices and volumes. `rand i` supplies the draws of iteration
`i` (CE leg, then PE leg). -/
def generateMockOptionsChain (rand : Nat → LegRand × LegRand) : ZResponse :=
  mockChainStrikes.enum.flatMap (fun p =>
    let index := p.1
    let strike := p.2
    let ce := (rand index).1
    let pe := (rand index).2
    [ (toString strike ++ "CE",
       { instrument_token := 20000000 + strike,
         last_price := max 5 (100 - (index : Rat) * 25 + ce.pr * 20),
         change := (ce.ch - 1/2) * 10,
         net_change := (ce.nc - 1/2) * 5,
         volume := Rat.floor (ce.vol * 500000) + 50000 }),
      (toString strike ++ "PE",
       { instrument_token := 30000000 + strike,
         last_price := max 5 (20 + (index : Rat) * 15 + pe.pr * 20),
         change := (pe.ch - 1/2) * 10,
         net_change := (pe.nc - 1/2) * 5,
         volume := Rat.floor (pe.vol * 400000) + 40000 }) ])

/-- `ZerodhaService.getMockData` (whatsapp.ts lines 444-460): dispatch on
the endpoint string - `includes("quote")` is tested FIRST, then
`includes("instruments")`, else an empty object. -/
def getMockData (rand : Nat → LegRand × LegRand) (endpoint : String) :
    ZResponse :=
  if stringIncludes endpoint "quote" then mockNiftyQuote
  else if stringIncludes endpoint "instruments" then
    generateMockOptionsChain rand
  else []

/-- `ZerodhaService.makeRequest` (whatsapp.ts lines 417-442): without both
credentials return mock data immediately; with credentials, a fetch error
or non-ok status is caught and also falls back to mock data; a parsed body
is returned as-is. -/
def makeRequest (apiKey accessToken : String) (outcome : ZNetOutcome)
    (rand : Nat → LegRand × LegRand) (endpoint : String) : ZResponse :=
  if apiKey == "" || accessToken == "" then getMockData rand endpoint
  else
    match outcome with
    | .ok body => body
    | .fetchError => getMockData rand endpoint
    | .badStatus _ => getMockData rand endpoint

/-- The instrument list and query string `getOptionsChain` builds
(whatsapp.ts lines 492-501): for each strike a CE and a PE symbol
`NFO:NIFTY<yy><expiry><strike>CE/PE`, joined with `&i=` after
`/quote?i=`. -/
def getOptionsChainEndpoint (yearSuffix expiry : String)
    (strikes : List Int) : String :=
  "/quote?i=" ++ String.intercalate "&i="
    (strikes.flatMap (fun strike =>
      [ "NFO:NIFTY" ++ yearSuffix ++ expiry ++ toString strike ++ "CE",
        "NFO:NIFTY" ++ yearSuffix ++ expiry ++ toString strike ++ "PE" ]))

/-- `ZerodhaService.getOptionsChain` (whatsapp.ts lines 492-501). -/
def getOptionsChain (apiKey accessToken : String) (outcome : ZNetOutcome)
    (rand : Nat → LegRand × LegRand) (yearSuffix expiry : String)
    (strikes : List Int) : ZResponse :=
  makeRequest apiKey accessToken outcome rand
    (getOptionsChainEndpoint yearSuffix expiry strikes)

/-- `ZerodhaService.getNiftyQuote` (whatsapp.ts lines 487-490). -/
def getNiftyQuote (apiKey accessToken : String) (outcome : ZNetOutcome)
    (rand : Nat → LegRand × LegRand) : ZResponse :=
  makeRequest apiKey accessToken outcome rand "/quote?i=NSE:NIFTY 50"

/-- Whether a response carries an entry for a given strike: some key
mentions the strike number (live keys are `NFO:NIFTY<yy><mmdd><strike>CE`,
mock chain keys are `<strike>CE`/`<strike>PE`). -/
def hasEntryForStrike (resp : ZResponse) (strike : Int) : Bool :=
  resp.any (fun kv => stringIncludes kv.1 (toString strike))

end ZerodhaService

namespace AISignalsService

/-- The `TechnicalIndicators` interface (whatsapp.ts lines 120-126). -/
structure TechnicalIndicators where
  rsi : Rat
  sma20 : Rat
  sma50 : Rat
  volume : Rat
  volatility : Rat
deriving Repr, DecidableEq

/-- The trend literal union (whatsapp.ts line 129). -/
inductive Trend
  | bullish
  | bearish
  | sideways
deriving Repr, DecidableEq

/-- The `MarketConditions` interface (whatsapp.ts lines 128-132). -/
structure MarketConditions where
  trend : Trend
  strength : Rat
  momentum : Rat
deriving Repr, DecidableEq

/-- `Object.values(marketData)[0]?.last_price || 19845` (whatsapp.ts
lines 164 and 199): the first quote in the response, falling back to the
constant when the response is empty or the field is falsy (0). -/
def quotePriceOr (resp : ZResponse) (fallback : Rat) : Rat :=
  match resp with
  | [] => fallback
  | (_, q) :: _ => if q.last_price == 0 then fallback else q.last_price

/-- `Object.values(marketData)[0]?.volume || 1000000` (whatsapp.ts
line 200). -/
def quoteVolumeOr (resp : ZResponse) (fallback : Int) : Int :=
  match resp with
  | [] => fallback
  | (_, q) :: _ => if q.volume == 0 then fallback else q.volume

/-- `AISignalsService.calculateTechnicalIndicators` (whatsapp.ts
lines 197-209); `r1`-`r4` are the four `Math.random()` draws in source
order (rsi, sma20, sma50, volatility). -/
def calculateTechnicalIndicators (marketData : ZResponse)
    (r1 r2 r3 r4 : Rat) : TechnicalIndicators :=
  let price := quotePriceOr marketData 19845
  let volume := quoteVolumeOr marketData 1000000
  { rsi := 45 + r1 * 20,
    sma20 := price * ((98 : Rat) / 100 + r2 * ((4 : Rat) / 100)),
    sma50 := price * ((96 : Rat) / 100 + r3 * ((8 : Rat) / 100)),
    volume := (volume : Rat),
    volatility := 15 + r4 * 10 }

/-- `AISignalsService.analyzeMarketConditions` (whatsapp.ts lines 211-231);
`r1`, `r2` are the strength and momentum draws of whichever branch runs. -/
def analyzeMarketConditions (indicators : TechnicalIndicators)
    (r1 r2 : Rat) : MarketConditions :=
  if indicators.rsi > 55 ∧ indicators.sma20 > indicators.sma50 then
    { trend := Trend.bullish, strength := 60 + r1 * 30, momentum := 55 + r2 * 25 }
  else if indicators.rsi < 45 ∧ indicators.sma20 < indicators.sma50 then
    { trend := Trend.bearish, strength := 60 + r1 * 30, momentum := 55 + r2 * 25 }
  else
    { trend := Trend.sideways, strength := 40 + r1 * 20, momentum := 40 + r2 * 20 }

/-- Two-digit zero padding of the fractional part for `toFixed(2)`. -/
def pad2 (n : Nat) : String :=
  if n < 10 then "0" ++ toString n else toString n

/-- `x.toFixed(2)` on a non-negative value: round half-up to two decimal
places and render with exactly two fractional digits (negative values get
a leading minus; the generator only ever formats positive prices). -/
def toFixed2 (q : Rat) : String :=
  let qa := if q < 0 then -q else q
  let m := Rat.floor (qa * 100 + (1 : Rat) / 2)
  let s := toString (m / 100) ++ "." ++ pad2 (m % 100).toNat
  if q < 0 then "-" ++ s else s

/-- `AISignalsService.generateReasoning` (whatsapp.ts lines 296-320):
collect the matching condition strings in source order, keep the first
two, join with a comma. -/
def generateReasoning (type : String) (indicators : TechnicalIndicators)
    (conditions : MarketConditions) (confidence : Int) : String :=
  let reasons : List String :=
    (if type == "CALL" then
      (if conditions.trend = Trend.bullish then ["Strong bullish momentum detected"] else []) ++
      (if indicators.rsi < 50 then ["RSI oversold recovery pattern"] else []) ++
      (if indicators.sma20 > indicators.sma50 then ["Short-term MA above long-term MA"] else []) ++
      (if indicators.volume > 1500000 then ["High volume supporting upward move"] else [])
    else
      (if conditions.trend = Trend.bearish then ["Bearish trend continuation expected"] else []) ++
      (if indicators.rsi > 60 then ["RSI overbought, correction likely"] else []) ++
      (if indicators.sma20 < indicators.sma50 then ["Short-term MA below long-term MA"] else []) ++
      (if indicators.volatility > 25 then ["High volatility favoring downward move"] else []))
    ++ (if confidence > 90 then ["Multiple confirmations align"] else [])
    ++ (if conditions.strength > 75 then ["Strong directional bias"] else [])
  String.intercalate ", " (reasons.take 2) ++ ". Trade with proper risk management."

/-- `strikes[idx].toString()` with a JS-array semantics for an index that
may fall outside the array: a miss yields `undefined` (rendered as the
string "undefined"; at the only call site the array has five elements and
every reachable index is in range). -/
def strikeAt (strikes : List Int) (idx : Int) : String :=
  if idx < 0 then "undefined"
  else
    match strikes.get? idx.toNat with
    | some k => toString k
    | none => "undefined"

/-- The `Math.random()` draws one iteration of the signal loop consumes,
in source order: the call/put draw, the strike-offset draw, the confidence
jitter draw, the base-price draw, the target draw, the stop draw. -/
structure SignalRand where
  callR : Rat
  strikeR : Rat
  confR : Rat
  baseR : Rat
  targetR : Rat
  stopR : Rat
deriving Repr, DecidableEq

/-- One iteration of the loop body of
`AISignalsService.generateTradingSignals` (whatsapp.ts lines 246-291).
`Math.floor(strikes.length * 0.6)` and `* 0.4` are `(n*6)/10` and
`(n*4)/10` in integer arithmetic (exact for the five-element ladder the
caller always passes). The confidence starts at 60, gains fixed bonuses
from four threshold tests, gains the jitter `floor(r*20) - 10`, and is
clamped with `max(60, min(98, c))`. -/
def mkSignal (strikes : List Int) (indicators : TechnicalIndicators)
    (conditions : MarketConditions) (expiryDate : Nat) (r : SignalRand) :
    InsertTradingSignal :=
  let isCall : Bool :=
    if conditions.trend = Trend.bullish then decide (r.callR > (3 : Rat) / 10)
    else decide (r.callR > (7 : Rat) / 10)
  let type := if isCall then "CALL" else "PUT"
  let strikePrice : String :=
    if isCall then
      strikeAt strikes (((strikes.length * 6) / 10 : Nat) + Rat.floor (r.strikeR * 2))
    else
      strikeAt strikes (((strikes.length * 4) / 10 : Nat) - Rat.floor (r.strikeR * 2))
  let c0 : Int := 60
  let c1 := if conditions.strength > 70 then c0 + 15 else c0
  let c2 := if conditions.momentum > 70 then c1 + 10 else c1
  let c3 := if indicators.volume > 2000000 then c2 + 5 else c2
  let c4 := if indicators.volatility < 20 then c3 + 10 else c3
  let c5 := c4 + (Rat.floor (r.confR * 20)) - 10
  let confidence := max 60 (min 98 c5)
  let basePrice := 30 + r.baseR * 40
  let targetPrice := basePrice * ((3 : Rat) / 2 + r.targetR * ((4 : Rat) / 5))
  let stopLoss := basePrice * ((2 : Rat) / 5 + r.stopR * ((3 : Rat) / 10))
  let reasoning := generateReasoning type indicators conditions confidence
  { type := type, strikePrice := strikePrice,
    targetPrice := toFixed2 targetPrice, stopLoss := toFixed2 stopLoss,
    confidence := confidence, reasoning := reasoning,
    expiryDate := expiryDate, isActive := true, whatsappSent := false }

/-- `AISignalsService.generateTradingSignals` (whatsapp.ts lines 233-294):
`numSignals = 1 + Math.floor(Math.random() * 3)` from the draw `numR`,
then one signal per loop iteration from the tape `rand`. The
`currentPrice` parameter is accepted and unused, exactly as in the
source. -/
def generateTradingSignals (strikes : List Int) (_currentPrice : Rat)
    (indicators : TechnicalIndicators) (conditions : MarketConditions)
    (expiryDate : Nat) (numR : Rat) (rand : Nat → SignalRand) :
    List InsertTradingSignal :=
  let numSignals := 1 + (Rat.floor (numR * 3)).toNat
  (List.range numSignals).map
    (fun i => mkSignal strikes indicators conditions expiryDate (rand i))

/-- `AISignalsService.getNextThursday` (whatsapp.ts lines 322-329) on a
day-number clock: `(4 - day + 7) % 7` days ahead, or a full week when that
is zero; the 15:30 time-of-day setting is not represented on the day
granularity. -/
def getNextThursday (todayDayNumber : Nat) (dayOfWeek : Fin 7) : Nat :=
  let daysUntilThursday := (4 + 7 - dayOfWeek.val) % 7
  todayDayNumber + (if daysUntilThursday = 0 then 7 else daysUntilThursday)

/-- A record of one `whatsappService.sendTradingSignal` invocation made by
the fan-out loop: the recipient and the payload fields passed
(whatsapp.ts lines 336-343). -/
structure SendCall where
  phoneNumber : String
  signalId : Nat
  payload : WhatsAppService.SignalPayload
deriving Repr, DecidableEq

/-- `AISignalsService.sendWhatsAppNotifications` (whatsapp.ts
lines 331-352): read the active subscribers, send the signal to each in
order, then mark the signal's record as sent. Returns the new store, the
send log, and the list of `updateSignalWhatsappSent` calls made. -/
def sendWhatsAppNotifications (st : MemStorage) (signal : TradingSignal) :
    MemStorage × List SendCall × List Nat :=
  let users := st.getAllWhatsappUsers
  let sends := users.map (fun u =>
    { phoneNumber := u.phoneNumber, signalId := signal.id,
      payload :=
        { type := signal.type, strikePrice := signal.strikePrice,
          confidence := signal.confidence, targetPrice := signal.targetPrice,
          stopLoss := signal.stopLoss, reasoning := signal.reasoning } })
  let st1 := (st.updateSignalWhatsappSent signal.id).1
  (st1, sends, [signal.id])

/-- The body of the persistence loop of `AISignalsService.generateSignals`
(whatsapp.ts lines 181-188): save the signal, and when its confidence is
at least 90 fan out the notifications. -/
def handleGeneratedSignal (st : MemStorage) (s : InsertTradingSignal)
    (now : Nat) : MemStorage × List SendCall × List Nat :=
  let saved := st.createTradingSignal s now
  if s.confidence ≥ 90 then
    let r := sendWhatsAppNotifications saved.1 saved.2
    (r.1, r.2.1, r.2.2)
  else
    (saved.1, [], [])

/-- The whole persistence loop of `generateSignals` over the generated
batch, accumulating the send and update logs in order. -/
def processSignals (st : MemStorage) (signals : List InsertTradingSignal)
    (now : Nat) : MemStorage × List SendCall × List Nat :=
  match signals with
  | [] => (st, [], [])
  | s :: rest =>
      let r := handleGeneratedSignal st s now
      let r2 := processSignals r.1 rest now
      (r2.1, r.2.1 ++ r2.2.1, r.2.2 ++ r2.2.2)

end AISignalsService

/-- The session object the login route stores (routes.ts line 21). -/
structure Session where
  userId : Nat
  username : String
deriving Repr, DecidableEq

namespace Routes

/-- Result of `POST /api/auth/login` (routes.ts lines 11-27): HTTP status,
the session established (none on failure), and the response user body. -/
structure LoginResult where
  status : Nat
  session : Option Session
  user : Option (Nat × String)
deriving Repr, DecidableEq

/-- `POST /api/auth/login` (routes.ts lines 11-27): look the user up by
username; a missing user or a password mismatch yields 401 with no
session; otherwise the session is set and `{ id, username }` returned. -/
def loginRoute (st : MemStorage) (username password : String) : LoginResult :=
  match st.getUserByUsername username with
  | none => { status := 401, session := none, user := none }
  | some user =>
      if user.password == password then
        { status := 200,
          session := some { userId := user.id, username := user.username },
          user := some (user.id, user.username) }
      else
        { status := 401, session := none, user := none }

/-- `POST /api/whatsapp/users` (routes.ts lines 91-120): the zod schema
accepts any string `phoneNumber`; the `validatePhoneNumber` guard compares
against an un-awaited Promise (the function is `async`), which is always
truthy, so that 400 branch never fires at runtime; a phone already present
among the ACTIVE subscribers yields 400; otherwise the subscriber is added
(and a welcome message sent, which does not touch the store). -/
def postWhatsappUsersRoute (st : MemStorage) (phoneNumber : String)
    (now : Nat) : MemStorage × Nat :=
  if (st.getAllWhatsappUsers).any (fun u => u.phoneNumber == phoneNumber) then
    (st, 400)
  else
    ((st.addWhatsappUser phoneNumber now).1, 200)

/-- `DELETE /api/whatsapp/users/:phoneNumber` (routes.ts lines 122-135),
taking the already-URI-decoded path parameter: 200 with the success
message when `removeWhatsappUser` returns true, else 404. -/
def deleteWhatsappUserRoute (st : MemStorage) (phoneNumber : String) :
    MemStorage × Nat × String :=
  let r := st.removeWhatsappUser phoneNumber
  if r.2 then (r.1, 200, "User removed successfully")
  else (r.1, 404, "User not found")

/-- Subscriber operations reachable through the HTTP API. -/
inductive WaOp
  | add (phoneNumber : String) (now : Nat)
  | remove (phoneNumber : String)
deriving Repr, DecidableEq

/-- Apply one API operation to the store. -/
def applyWaOp (st : MemStorage) : WaOp → MemStorage
  | .add p now => (postWhatsappUsersRoute st p now).1
  | .remove p => (deleteWhatsappUserRoute st p).1

/-- Run a sequence of API subscriber operations from a given store. -/
def runWaOps (st : MemStorage) : List WaOp → MemStorage
  | [] => st
  | op :: ops => runWaOps (applyWaOp st op) ops

end Routes

namespace MemStorage

/-- Elements of the whatsapp-user map that are active and carry a given
phone number: the quantity the phone-uniqueness invariant bounds. -/
def activeCount (st : MemStorage) (q : String) : Nat :=
  st.whatsappUsers.countP (fun u => u.isActive && u.phoneNumber == q)

lemma deactivateFirst_append_last (l : List WhatsappUser) (u : WhatsappUser)
    (p : String) (hl : ∀ v ∈ l, v.phoneNumber ≠ p) (hu : u.phoneNumber = p) :
    deactivateFirst (l ++ [u]) p = l ++ [{ u with isActive := false }] := by
  induction l with
  | nil => simp [deactivateFirst, hu]
  | cons a t ih =>
      have ha : ¬ a.phoneNumber = p := hl a (List.mem_cons_self a t)
      simp only [List.cons_append, deactivateFirst, beq_iff_eq, if_neg ha,
        List.cons.injEq, true_and]
      exact ih (fun v hv => hl v (List.mem_cons_of_mem a hv))

lemma setWhatsappSent_append_last (l : List TradingSignal) (s : TradingSignal)
    (i : Nat) (hl : ∀ g ∈ l, g.id ≠ i) (hs : s.id = i) :
    setWhatsappSent (l ++ [s]) i = l ++ [{ s with whatsappSent := true }] := by
  induction l with
  | nil => simp [setWhatsappSent, hs]
  | cons a t ih =>
      have ha : ¬ a.id = i := hl a (List.mem_cons_self a t)
      simp only [List.cons_append, setWhatsappSent, beq_iff_eq, if_neg ha,
        List.cons.injEq, true_and]
      exact ih (fun g hg => hl g (List.mem_cons_of_mem a hg))

lemma exists_first_phone_match (l : List WhatsappUser) (p : String)
    (h : ∃ u ∈ l, u.phoneNumber = p) :
    ∃ l1 u l2, l = l1 ++ u :: l2 ∧ u.phoneNumber = p ∧
      (∀ v ∈ l1, v.phoneNumber ≠ p) ∧
      deactivateFirst l p = l1 ++ { u with isActive := false } :: l2 ∧
      l.find? (fun v => v.phoneNumber == p) = some u := by
  induction l with
  | nil => simp at h
  | cons a t ih =>
      by_cases ha : a.phoneNumber = p
      · exact ⟨[], a, t, by simp, ha, by simp,
          by simp [deactivateFirst, ha], by simp [ha]⟩
      · obtain ⟨u, hu, hup⟩ := h
        have hut : u ∈ t := by
          rcases List.mem_cons.mp hu with h1 | h1
          · exact absurd (h1 ▸ hup) ha
          · exact h1
        obtain ⟨l1, v, l2, h1, h2, h3, h4, h5⟩ := ih ⟨u, hut, hup⟩
        refine ⟨a :: l1, v, l2, by simp [h1], h2, ?_, ?_, ?_⟩
        · intro w hw
          rcases List.mem_cons.mp hw with h6 | h6
          · exact h6 ▸ ha
          · exact h3 w h6
        · simp [deactivateFirst, ha, h4]
        · simp [ha, h5]

lemma countP_deactivateFirst_le (l : List WhatsappUser) (p q : String) :
    (deactivateFirst l p).countP (fun u => u.isActive && u.phoneNumber == q)
      ≤ l.countP (fun u => u.isActive && u.phoneNumber == q) := by
  induction l with
  | nil => simp [deactivateFirst]
  | cons a t ih =>
      by_cases ha : a.phoneNumber = p
      · simp only [deactivateFirst, beq_iff_eq, if_pos ha, List.countP_cons]
        have : ((fun u : WhatsappUser => u.isActive && u.phoneNumber == q)
            { a with isActive := false }) = false := by simp
        simp [this]
      · simp only [deactivateFirst, beq_iff_eq, if_neg ha, List.countP_cons]
        omega

end MemStorage

namespace Routes

lemma deleteRoute_store (st : MemStorage) (p : String) :
    (deleteWhatsappUserRoute st p).1 = (st.removeWhatsappUser p).1 := by
  cases hr : (st.removeWhatsappUser p).2 <;>
    simp [deleteWhatsappUserRoute, hr]

lemma activeCount_add_le (st : MemStorage) (p : String) (now : Nat)
    (h : ∀ q, st.activeCount q ≤ 1) (q : String) :
    ((postWhatsappUsersRoute st p now).1).activeCount q ≤ 1 := by
  by_cases hdup : (st.getAllWhatsappUsers).any (fun u => u.phoneNumber == p) = true
  · simpa [postWhatsappUsersRoute, hdup] using h q
  · have hdup2 : ∀ u ∈ st.getAllWhatsappUsers, ¬ (u.phoneNumber == p) = true := by
      intro u hu hc
      exact hdup (List.any_eq_true.mpr ⟨u, hu, hc⟩)
    have hnew : (postWhatsappUsersRoute st p now).1.whatsappUsers
        = st.whatsappUsers ++ [⟨st.currentWhatsappUserId, p, true, now⟩] := by
      simp [postWhatsappUsersRoute, hdup, MemStorage.addWhatsappUser]
    rw [MemStorage.activeCount, hnew, List.countP_append]
    by_cases hpq : p = q
    · subst hpq
      have h0 : st.whatsappUsers.countP
          (fun u => u.isActive && u.phoneNumber == p) = 0 := by
        rw [List.countP_eq_zero]
        intro a ha hc
        have h1 : a.isActive = true ∧ (a.phoneNumber == p) = true := by
          simpa using hc
        exact hdup2 a (List.mem_filter.mpr ⟨ha, h1.1⟩) h1.2
      rw [h0]
      simp [List.countP_cons]
    · have h1 := h q
      rw [MemStorage.activeCount] at h1
      have h2 : List.countP (fun u => u.isActive && u.phoneNumber == q)
          [(⟨st.currentWhatsappUserId, p, true, now⟩ : WhatsappUser)] = 0 := by
        simp [List.countP_cons, hpq]
      omega

lemma activeCount_remove_le (st : MemStorage) (p : String)
    (h : ∀ q, st.activeCount q ≤ 1) (q : String) :
    ((deleteWhatsappUserRoute st p).1).activeCount q ≤ 1 := by
  rw [deleteRoute_store]
  cases hf : st.whatsappUsers.find? (fun u => u.phoneNumber == p) with
  | none => simpa [MemStorage.removeWhatsappUser, hf, MemStorage.activeCount] using h q
  | some u =>
      have h1 : (st.removeWhatsappUser p).1.whatsappUsers
          = MemStorage.deactivateFirst st.whatsappUsers p := by
        simp [MemStorage.removeWhatsappUser, hf]
      rw [MemStorage.activeCount, h1]
      exact le_trans (MemStorage.countP_deactivateFirst_le _ p q) (h q)

lemma runWaOps_activeCount_le (ops : List WaOp) (st : MemStorage)
    (h : ∀ q, st.activeCount q ≤ 1) (q : String) :
    (runWaOps st ops).activeCount q ≤ 1 := by
  induction ops generalizing st with
  | nil => simpa [runWaOps] using h q
  | cons op rest ih =>
      refine ih (applyWaOp st op) (fun q2 => ?_)
      cases op with
      | add p now => exact activeCount_add_le st p now h q2
      | remove p => exact activeCount_remove_le st p h q2

end Routes

/-- C8 counterexample: the claim "no two notification-subscriber records
hold the same phone number ... including re-adding a previously removed
number" is false on the code. Through the API, adding "9876543210",
removing it (soft delete), and adding it again leaves TWO records holding
the same phone number (the inactive original and the fresh active one). -/
theorem phone_uniqueness_counterexample :
    ((Routes.runWaOps MemStorage.initStorage
        [Routes.WaOp.add "9876543210" 0, Routes.WaOp.remove "9876543210",
         Routes.WaOp.add "9876543210" 1]).whatsappUsers.countP
      (fun u => u.phoneNumber == "9876543210")) = 2 := by decide

/-- C8 (amended): phone numbers are unique across ACTIVE subscriber
records: at every store reachable from the seeded store by API add/remove
operations, at most one active record holds any given phone number
(soft-deleted records may duplicate the phone of a re-added number). -/
theorem active_phone_unique_invariant (ops : List Routes.WaOp) (q : String) :
    (Routes.runWaOps MemStorage.initStorage ops).activeCount q ≤ 1 := by
  refine Routes.runWaOps_activeCount_le ops MemStorage.initStorage (fun q2 => ?_) q
  simp [MemStorage.initStorage, MemStorage.emptyStorage, MemStorage.createUser,
    MemStorage.activeCount]

/-- C3 counterexample: for the valid phone "9876543210", starting from the
reachable store in which that number was added and then soft-deleted,
adding it again and listing contains it exactly once (as the claim says),
but then removing it and listing still CONTAINS it once - the removal
deactivates the older, already-inactive record, so the claim's
"removing ... yields a list not containing it" is false. -/
theorem add_remove_list_counterexample :
    WhatsAppService.validatePhoneNumber "9876543210" = true ∧
    (((Routes.runWaOps MemStorage.initStorage
        [Routes.WaOp.add "9876543210" 0, Routes.WaOp.remove "9876543210"]).addWhatsappUser
          "9876543210" 1).1.getAllWhatsappUsers.countP
      (fun u => u.phoneNumber == "9876543210") = 1) ∧
    ((((Routes.runWaOps MemStorage.initStorage
        [Routes.WaOp.add "9876543210" 0, Routes.WaOp.remove "9876543210"]).addWhatsappUser
          "9876543210" 1).1.removeWhatsappUser "9876543210").1.getAllWhatsappUsers.countP
      (fun u => u.phoneNumber == "9876543210") = 1) := by
  refine ⟨by decide, by decide, by decide⟩

/-- C3 (amended): for every phone number accepted by the validation
pattern, PROVIDED the store holds no prior record with that phone number
(active or soft-deleted), adding it and listing subscribers contains it
exactly once, and subsequently removing it and listing excludes it. -/
theorem add_then_remove_fresh_phone (st : MemStorage) (p : String) (now : Nat)
    (_hvalid : WhatsAppService.validatePhoneNumber p = true)
    (hfresh : ∀ u ∈ st.whatsappUsers, u.phoneNumber ≠ p) :
    ((st.addWhatsappUser p now).1.getAllWhatsappUsers.countP
        (fun u => u.phoneNumber == p) = 1) ∧
    (∀ u ∈ ((st.addWhatsappUser p now).1.removeWhatsappUser p).1.getAllWhatsappUsers,
        u.phoneNumber ≠ p) := by
  have hadd : (st.addWhatsappUser p now).1.whatsappUsers
      = st.whatsappUsers ++ [⟨st.currentWhatsappUserId, p, true, now⟩] := rfl
  have h0 : (st.whatsappUsers.filter (fun u => u.isActive)).countP
      (fun u => u.phoneNumber == p) = 0 := by
    rw [List.countP_eq_zero]
    intro a ha hc
    exact hfresh a (List.mem_filter.mp ha).1 (by simpa using hc)
  constructor
  · rw [MemStorage.getAllWhatsappUsers, hadd, List.filter_append,
      List.countP_append, h0]
    simp
  · have hnone : st.whatsappUsers.find? (fun u => u.phoneNumber == p) = none := by
      rw [List.find?_eq_none]
      intro x hx
      simpa using hfresh x hx
    have hfind : (st.whatsappUsers ++ [(⟨st.currentWhatsappUserId, p, true, now⟩ : WhatsappUser)]).find?
        (fun u => u.phoneNumber == p)
        = some ⟨st.currentWhatsappUserId, p, true, now⟩ := by
      rw [List.find?_append, hnone]
      simp
    have hrem : ((st.addWhatsappUser p now).1.removeWhatsappUser p).1.whatsappUsers
        = st.whatsappUsers ++ [⟨st.currentWhatsappUserId, p, false, now⟩] := by
      simp only [MemStorage.removeWhatsappUser, hadd, hfind]
      exact MemStorage.deactivateFirst_append_last _ _ _ hfresh rfl
    intro u hu
    rw [MemStorage.getAllWhatsappUsers, hrem, List.filter_append] at hu
    rcases List.mem_append.mp hu with h1 | h1
    · exact hfresh u (List.mem_filter.mp h1).1
    · simp at h1

/-- Witness for the amended C3 at a concrete valid phone and the seeded
(empty-subscriber) store. -/
theorem add_then_remove_fresh_phone_witness :
    ((MemStorage.initStorage.addWhatsappUser "9876543210" 0).1.getAllWhatsappUsers.countP
        (fun u => u.phoneNumber == "9876543210") = 1) ∧
    (∀ u ∈ ((MemStorage.initStorage.addWhatsappUser "9876543210" 0).1.removeWhatsappUser
        "9876543210").1.getAllWhatsappUsers, u.phoneNumber ≠ "9876543210") :=
  add_then_remove_fresh_phone MemStorage.initStorage "9876543210" 0
    (by decide) (by intro u hu; simp [MemStorage.initStorage, MemStorage.emptyStorage,
      MemStorage.createUser] at hu)

/-- C7: deleting a subscriber by a phone number no record holds responds
404 with the not-found message and returns the store unchanged. -/
theorem delete_unknown_phone_404 (st : MemStorage) (p : String)
    (h : ∀ u ∈ st.whatsappUsers, u.phoneNumber ≠ p) :
    Routes.deleteWhatsappUserRoute st p = (st, 404, "User not found") := by
  have hfind : st.whatsappUsers.find? (fun u => u.phoneNumber == p) = none := by
    rw [List.find?_eq_none]
    intro x hx
    simpa using h x hx
  simp [Routes.deleteWhatsappUserRoute, MemStorage.removeWhatsappUser, hfind]

/-- Witness for C7 at the seeded store, which has no subscriber records. -/
theorem delete_unknown_phone_404_witness :
    Routes.deleteWhatsappUserRoute MemStorage.initStorage "9876543210"
      = (MemStorage.initStorage, 404, "User not found") :=
  delete_unknown_phone_404 MemStorage.initStorage "9876543210"
    (by intro u hu; simp [MemStorage.initStorage, MemStorage.emptyStorage,
      MemStorage.createUser] at hu)

/-- C9 counterexample: the claim "for EVERY subscriber record present in
the store, removing it by phone number sets ITS active flag to false" is
false. In the reachable store where "9876543210" was added, soft-deleted
and re-added, the record with id 2 is present, active, and holds that
phone, yet after removing by that phone number the id-2 record is STILL
active (the removal deactivated the older id-1 record instead). -/
theorem soft_delete_frame_counterexample :
    (((Routes.runWaOps MemStorage.initStorage
        [Routes.WaOp.add "9876543210" 0, Routes.WaOp.remove "9876543210",
         Routes.WaOp.add "9876543210" 1]).whatsappUsers.find?
        (fun u => u.id == 2)).map (fun u => (u.phoneNumber, u.isActive))
      = some ("9876543210", true)) ∧
    ((((Routes.runWaOps MemStorage.initStorage
        [Routes.WaOp.add "9876543210" 0, Routes.WaOp.remove "9876543210",
         Routes.WaOp.add "9876543210" 1]).removeWhatsappUser
        "9876543210").1.whatsappUsers.find?
        (fun u => u.id == 2)).map (fun u => u.isActive) = some true) := by
  refine ⟨by decide, by decide⟩

/-- C9 (amended): when some record holds the phone number, removal
deactivates the FIRST such record (in insertion order): that record stays
in the store at its position with only its active flag changed (id, phone
number, creation timestamp intact), every other subscriber record, every
other entity map and the id allocator are unmodified, and the call
returns true. -/
theorem soft_delete_frame (st : MemStorage) (p : String)
    (h : ∃ u ∈ st.whatsappUsers, u.phoneNumber = p) :
    ∃ l1 u l2,
      st.whatsappUsers = l1 ++ u :: l2 ∧ u.phoneNumber = p ∧
      (∀ v ∈ l1, v.phoneNumber ≠ p) ∧
      (st.removeWhatsappUser p).2 = true ∧
      (st.removeWhatsappUser p).1.whatsappUsers
        = l1 ++ { u with isActive := false } :: l2 ∧
      (st.removeWhatsappUser p).1.users = st.users ∧
      (st.removeWhatsappUser p).1.tradingSignals = st.tradingSignals ∧
      (st.removeWhatsappUser p).1.portfolioPositions = st.portfolioPositions ∧
      (st.removeWhatsappUser p).1.marketData = st.marketData ∧
      (st.removeWhatsappUser p).1.optionsChain = st.optionsChain ∧
      (st.removeWhatsappUser p).1.currentWhatsappUserId
        = st.currentWhatsappUserId := by
  obtain ⟨l1, u, l2, h1, h2, h3, h4, h5⟩ :=
    MemStorage.exists_first_phone_match st.whatsappUsers p h
  refine ⟨l1, u, l2, h1, h2, h3, ?_, ?_, ?_, ?_, ?_, ?_, ?_, ?_⟩ <;>
    simp [MemStorage.removeWhatsappUser, h5, h4]

/-- Witness for the amended C9 on a store holding one matching record. -/
theorem soft_delete_frame_witness :
    ∃ l1 u l2,
      (MemStorage.initStorage.addWhatsappUser "9876543210" 0).1.whatsappUsers
          = l1 ++ u :: l2 ∧ u.phoneNumber = "9876543210" ∧
      (∀ v ∈ l1, v.phoneNumber ≠ "9876543210") ∧
      ((MemStorage.initStorage.addWhatsappUser "9876543210" 0).1.removeWhatsappUser
          "9876543210").2 = true ∧
      ((MemStorage.initStorage.addWhatsappUser "9876543210" 0).1.removeWhatsappUser
          "9876543210").1.whatsappUsers = l1 ++ { u with isActive := false } :: l2 ∧
      ((MemStorage.initStorage.addWhatsappUser "9876543210" 0).1.removeWhatsappUser
          "9876543210").1.users
        = (MemStorage.initStorage.addWhatsappUser "9876543210" 0).1.users ∧
      ((MemStorage.initStorage.addWhatsappUser "9876543210" 0).1.removeWhatsappUser
          "9876543210").1.tradingSignals
        = (MemStorage.initStorage.addWhatsappUser "9876543210" 0).1.tradingSignals ∧
      ((MemStorage.initStorage.addWhatsappUser "9876543210" 0).1.removeWhatsappUser
          "9876543210").1.portfolioPositions
        = (MemStorage.initStorage.addWhatsappUser "9876543210" 0).1.portfolioPositions ∧
      ((MemStorage.initStorage.addWhatsappUser "9876543210" 0).1.removeWhatsappUser
          "9876543210").1.marketData
        = (MemStorage.initStorage.addWhatsappUser "9876543210" 0).1.marketData ∧
      ((MemStorage.initStorage.addWhatsappUser "9876543210" 0).1.removeWhatsappUser
          "9876543210").1.optionsChain
        = (MemStorage.initStorage.addWhatsappUser "9876543210" 0).1.optionsChain ∧
      ((MemStorage.initStorage.addWhatsappUser "9876543210" 0).1.removeWhatsappUser
          "9876543210").1.currentWhatsappUserId
        = (MemStorage.initStorage.addWhatsappUser "9876543210" 0).1.currentWhatsappUserId :=
  soft_delete_frame (MemStorage.initStorage.addWhatsappUser "9876543210" 0).1
    "9876543210" ⟨⟨1, "9876543210", true, 0⟩, by decide, rfl⟩

/-- C10: removing a subscriber whose record exists but is already
inactive succeeds: `removeWhatsappUser` returns true and the DELETE
endpoint responds 200 with the success message, because the lookup
matches records regardless of their active flag. -/
theorem delete_inactive_succeeds (st : MemStorage) (p : String)
    (h : ∃ u ∈ st.whatsappUsers, u.phoneNumber = p ∧ u.isActive = false) :
    (st.removeWhatsappUser p).2 = true ∧
    (Routes.deleteWhatsappUserRoute st p).2 = (200, "User removed successfully") := by
  obtain ⟨u, hu, hup, _⟩ := h
  have hsome : (st.whatsappUsers.find? (fun v => v.phoneNumber == p)).isSome := by
    rw [List.find?_isSome]
    exact ⟨u, hu, by simpa using hup⟩
  obtain ⟨v, hv⟩ := Option.isSome_iff_exists.mp hsome
  constructor
  · simp [MemStorage.removeWhatsappUser, hv]
  · simp [Routes.deleteWhatsappUserRoute, MemStorage.removeWhatsappUser, hv]

/-- Witness for C10: the store where "9876543210" was added and already
soft-deleted; a second DELETE still succeeds. -/
theorem delete_inactive_succeeds_witness :
    (((Routes.runWaOps MemStorage.initStorage
        [Routes.WaOp.add "9876543210" 0,
         Routes.WaOp.remove "9876543210"]).removeWhatsappUser "9876543210").2 = true) ∧
    ((Routes.deleteWhatsappUserRoute
        (Routes.runWaOps MemStorage.initStorage
          [Routes.WaOp.add "9876543210" 0, Routes.WaOp.remove "9876543210"])
        "9876543210").2 = (200, "User removed successfully")) :=
  delete_inactive_succeeds _ "9876543210"
    ⟨⟨1, "9876543210", false, 0⟩, by decide, rfl, rfl⟩

/-- C4: against the seeded user map ("admin"/"admin" as the only record),
a login with the seeded credentials succeeds with status 200, establishes
a session, and returns the user; a login with ANY other username/password
pair yields status 401 and establishes no session. -/
theorem login_seeded_credentials (st : MemStorage)
    (husers : st.users = MemStorage.initStorage.users)
    (username password : String) :
    (username = "admin" ∧ password = "admin" →
      Routes.loginRoute st username password =
        { status := 200, session := some ⟨1, "admin"⟩, user := some (1, "admin") }) ∧
    (¬ (username = "admin" ∧ password = "admin") →
      Routes.loginRoute st username password =
        { status := 401, session := none, user := none }) := by
  have hu : st.users = [⟨1, "admin", "admin"⟩] := by rw [husers]; rfl
  constructor
  · rintro ⟨rfl, rfl⟩
    simp [Routes.loginRoute, MemStorage.getUserByUsername, hu]
  · intro hne
    by_cases h1 : username = "admin"
    · subst h1
      have h2 : ¬ ("admin" : String) = password := fun hp => hne ⟨rfl, hp.symm⟩
      simp [Routes.loginRoute, MemStorage.getUserByUsername, hu, h2]
    · have h1s : ¬ ("admin" : String) = username := fun e => h1 e.symm
      simp [Routes.loginRoute, MemStorage.getUserByUsername, hu, h1s]

/-- Witness for C4: the seeded credentials succeed and a wrong pair gets
401, both at the seeded store. -/
theorem login_seeded_credentials_witness :
    Routes.loginRoute MemStorage.initStorage "admin" "admin" =
      { status := 200, session := some ⟨1, "admin"⟩, user := some (1, "admin") } ∧
    Routes.loginRoute MemStorage.initStorage "admin" "wrong" =
      { status := 401, session := none, user := none } :=
  ⟨(login_seeded_credentials MemStorage.initStorage rfl "admin" "admin").1 ⟨rfl, rfl⟩,
   (login_seeded_credentials MemStorage.initStorage rfl "admin" "wrong").2
     (by simp)⟩

/-- C6: for every credential configuration, network outcome, recipient and
signal payload, `sendTradingSignal` (through `makeRequest`) returns
normally - the `Except` is always `ok`, never a propagated error. The
`success` field of the result is never false: it is true in mock mode
(missing credentials) and true in the catch-block result produced when
the remote call fails; on a parsed live body the untouched remote JSON is
returned. -/
theorem sendTradingSignal_soft_success (accessToken phoneNumberId : String)
    (outcome : WhatsAppService.WaNetOutcome) (phoneNumber : String)
    (signal : WhatsAppService.SignalPayload) :
    ∃ r, WhatsAppService.sendTradingSignal accessToken phoneNumberId outcome
          phoneNumber signal = Except.ok r ∧
      WhatsAppService.waSuccessFlag r ≠ some false ∧
      ((accessToken == "" || phoneNumberId == "") = true →
        r = WhatsAppService.WaResult.mockSuccess) ∧
      ((accessToken == "" || phoneNumberId == "") = false →
        (∀ b, outcome ≠ WhatsAppService.WaNetOutcome.ok b) →
          ∃ e, r = WhatsAppService.WaResult.softError e) := by
  by_cases hc : (accessToken == "" || phoneNumberId == "") = true
  · refine ⟨WhatsAppService.WaResult.mockSuccess, ?_, ?_, fun _ => rfl, ?_⟩
    · simp [WhatsAppService.sendTradingSignal, WhatsAppService.makeRequest, hc]
    · simp [WhatsAppService.waSuccessFlag]
    · intro hff
      rw [hc] at hff
      exact absurd hff (by simp)
  · have hc2 : (accessToken == "" || phoneNumberId == "") = false := by
      simpa using hc
    cases outcome with
    | fetchError =>
        refine ⟨WhatsAppService.WaResult.softError "fetch failed", ?_, ?_, ?_, ?_⟩
        · simp [WhatsAppService.sendTradingSignal, WhatsAppService.makeRequest, hc2]
        · simp [WhatsAppService.waSuccessFlag]
        · intro h; rw [hc2] at h; exact absurd h (by simp)
        · exact fun _ _ => ⟨_, rfl⟩
    | badStatus code =>
        refine ⟨WhatsAppService.WaResult.softError
          ("WhatsApp API error: " ++ toString code), ?_, ?_, ?_, ?_⟩
        · simp [WhatsAppService.sendTradingSignal, WhatsAppService.makeRequest, hc2]
        · simp [WhatsAppService.waSuccessFlag]
        · intro h; rw [hc2] at h; exact absurd h (by simp)
        · exact fun _ _ => ⟨_, rfl⟩
    | jsonError =>
        refine ⟨WhatsAppService.WaResult.softError "json parse failed", ?_, ?_, ?_, ?_⟩
        · simp [WhatsAppService.sendTradingSignal, WhatsAppService.makeRequest, hc2]
        · simp [WhatsAppService.waSuccessFlag]
        · intro h; rw [hc2] at h; exact absurd h (by simp)
        · exact fun _ _ => ⟨_, rfl⟩
    | ok body =>
        refine ⟨WhatsAppService.WaResult.remote body, ?_, ?_, ?_, ?_⟩
        · simp [WhatsAppService.sendTradingSignal, WhatsAppService.makeRequest, hc2]
        · simp [WhatsAppService.waSuccessFlag]
        · intro h; rw [hc2] at h; exact absurd h (by simp)
        · exact fun _ h => absurd rfl (h body)

/-- Witness for C6 at a concrete call: no credentials configured, fetch
failing, concrete recipient and payload. -/
theorem sendTradingSignal_soft_success_witness :
    ∃ r, WhatsAppService.sendTradingSignal "" "" WhatsAppService.WaNetOutcome.fetchError
          "9876543210"
          ⟨"CALL", "19850", 95, "75.00", "25.00", "Multiple confirmations align"⟩
        = Except.ok r ∧
      WhatsAppService.waSuccessFlag r ≠ some false ∧
      ((("" : String) == "" || ("" : String) == "") = true →
        r = WhatsAppService.WaResult.mockSuccess) ∧
      ((("" : String) == "" || ("" : String) == "") = false →
        (∀ b, WhatsAppService.WaNetOutcome.fetchError ≠ WhatsAppService.WaNetOutcome.ok b) →
          ∃ e, r = WhatsAppService.WaResult.softError e) :=
  sendTradingSignal_soft_success "" "" WhatsAppService.WaNetOutcome.fetchError
    "9876543210" ⟨"CALL", "19850", 95, "75.00", "25.00", "Multiple confirmations align"⟩

/-- C2: every signal record the generator produces, for every input state
and every outcome of the random draws, carries a confidence in the closed
interval [60, 98] (an integer by construction: every contribution to the
confidence is integral). -/
theorem generator_confidence_bounds (strikes : List Int) (currentPrice : Rat)
    (indicators : AISignalsService.TechnicalIndicators)
    (conditions : AISignalsService.MarketConditions) (expiryDate : Nat)
    (numR : Rat) (rand : Nat → AISignalsService.SignalRand) :
    ∀ s ∈ AISignalsService.generateTradingSignals strikes currentPrice indicators
        conditions expiryDate numR rand,
      60 ≤ s.confidence ∧ s.confidence ≤ 98 := by
  intro s hs
  simp only [AISignalsService.generateTradingSignals, List.mem_map] at hs
  obtain ⟨i, _, rfl⟩ := hs
  refine ⟨le_max_left _ _, max_le (by norm_num) (min_le_left _ _)⟩

/-- Witness for C2 on a concrete single-signal draw. -/
theorem generator_confidence_bounds_witness :
    60 ≤ (AISignalsService.mkSignal [19750, 19800, 19850, 19900, 19950]
        ⟨50, 100, 90, 1000000, 15⟩ ⟨AISignalsService.Trend.sideways, 50, 50⟩ 0
        ⟨0, 0, 0, 0, 0, 0⟩).confidence ∧
    (AISignalsService.mkSignal [19750, 19800, 19850, 19900, 19950]
        ⟨50, 100, 90, 1000000, 15⟩ ⟨AISignalsService.Trend.sideways, 50, 50⟩ 0
        ⟨0, 0, 0, 0, 0, 0⟩).confidence ≤ 98 := by
  have hmem : AISignalsService.mkSignal [19750, 19800, 19850, 19900, 19950]
      ⟨50, 100, 90, 1000000, 15⟩ ⟨AISignalsService.Trend.sideways, 50, 50⟩ 0
      ⟨0, 0, 0, 0, 0, 0⟩
      ∈ AISignalsService.generateTradingSignals [19750, 19800, 19850, 19900, 19950]
        19845 ⟨50, 100, 90, 1000000, 15⟩ ⟨AISignalsService.Trend.sideways, 50, 50⟩ 0 0
        (fun _ => ⟨0, 0, 0, 0, 0, 0⟩) := by
    simp [AISignalsService.generateTradingSignals]
  exact generator_confidence_bounds [19750, 19800, 19850, 19900, 19950] 19845
    ⟨50, 100, 90, 1000000, 15⟩ ⟨AISignalsService.Trend.sideways, 50, 50⟩ 0 0
    (fun _ => ⟨0, 0, 0, 0, 0, 0⟩) _ hmem

/-- C1: for every generated signal processed by the persistence loop of
`generateSignals`, when its confidence is at least 90 the fan-out makes
exactly one `sendTradingSignal` call per subscriber whose active flag is
true at fan-out time (the send log equals the active-subscriber list,
mapped to one call each), the signal record is created with
`whatsappSent = false`, exactly one `updateSignalWhatsappSent` call is
made, and the stored record ends with `whatsappSent = true`; when the
confidence is below 90 no send and no update happens, and the stored
record keeps `whatsappSent = false`. The freshness hypothesis is the
allocator invariant (no existing record already uses the id about to be
allocated), which holds in every reachable store. -/
theorem signal_fanout_confidence_gate (st : MemStorage)
    (s : InsertTradingSignal) (now : Nat)
    (hfresh : ∀ g ∈ st.tradingSignals, g.id ≠ st.currentSignalId) :
    (s.confidence ≥ 90 →
      (AISignalsService.handleGeneratedSignal st s now).2.1
        = st.getAllWhatsappUsers.map (fun u =>
            { phoneNumber := u.phoneNumber, signalId := st.currentSignalId,
              payload := { type := s.type, strikePrice := s.strikePrice,
                           confidence := s.confidence, targetPrice := s.targetPrice,
                           stopLoss := s.stopLoss, reasoning := s.reasoning } }) ∧
      (AISignalsService.handleGeneratedSignal st s now).2.2 = [st.currentSignalId] ∧
      (st.createTradingSignal s now).2.whatsappSent = false ∧
      ((AISignalsService.handleGeneratedSignal st s now).1.tradingSignals.find?
          (fun g => g.id == st.currentSignalId)).map (fun g => g.whatsappSent)
        = some true) ∧
    (s.confidence < 90 →
      (AISignalsService.handleGeneratedSignal st s now).2.1 = [] ∧
      (AISignalsService.handleGeneratedSignal st s now).2.2 = [] ∧
      ((AISignalsService.handleGeneratedSignal st s now).1.tradingSignals.find?
          (fun g => g.id == st.currentSignalId)).map (fun g => g.whatsappSent)
        = some false) := by
  have hfind0 : st.tradingSignals.find? (fun g => g.id == st.currentSignalId)
      = none := by
    rw [List.find?_eq_none]
    intro g hg
    simpa using hfresh g hg
  have hsig : (st.createTradingSignal s now).2
      = { id := st.currentSignalId, type := s.type, strikePrice := s.strikePrice,
          targetPrice := s.targetPrice, stopLoss := s.stopLoss,
          confidence := s.confidence, reasoning := s.reasoning,
          expiryDate := s.expiryDate, isActive := true, whatsappSent := false,
          createdAt := now } := rfl
  have hfind1 : ((st.createTradingSignal s now).1.tradingSignals).find?
      (fun g => g.id == st.currentSignalId) = some (st.createTradingSignal s now).2 := by
    show (st.tradingSignals ++ [(st.createTradingSignal s now).2]).find? _ = _
    rw [List.find?_append, hfind0]
    simp [hsig]
  constructor
  · intro hconf
    have hhandle : AISignalsService.handleGeneratedSignal st s now
        = AISignalsService.sendWhatsAppNotifications
            (st.createTradingSignal s now).1 (st.createTradingSignal s now).2 := by
      simp [AISignalsService.handleGeneratedSignal, if_pos hconf]
    have hupd : ((st.createTradingSignal s now).1.updateSignalWhatsappSent
        st.currentSignalId).1.tradingSignals
        = st.tradingSignals
          ++ [{ (st.createTradingSignal s now).2 with whatsappSent := true }] := by
      simp only [MemStorage.updateSignalWhatsappSent]
      rw [hfind1]
      show MemStorage.setWhatsappSent
        (st.tradingSignals ++ [(st.createTradingSignal s now).2]) _ = _
      exact MemStorage.setWhatsappSent_append_last _ _ _ hfresh rfl
    refine ⟨?_, ?_, rfl, ?_⟩
    · rw [hhandle]
      rfl
    · rw [hhandle]
      rfl
    · rw [hhandle]
      show ((((st.createTradingSignal s now).1.updateSignalWhatsappSent
          st.currentSignalId).1).tradingSignals.find?
          (fun g => g.id == st.currentSignalId)).map (fun g => g.whatsappSent)
        = some true
      rw [hupd, List.find?_append, hfind0]
      simp [hsig]
  · intro hconf
    have hnot : ¬ (s.confidence ≥ 90) := not_le.mpr hconf
    have hhandle : AISignalsService.handleGeneratedSignal st s now
        = ((st.createTradingSignal s now).1, [], []) := by
      simp [AISignalsService.handleGeneratedSignal, if_neg hnot]
    refine ⟨by rw [hhandle], by rw [hhandle], ?_⟩
    rw [hhandle]
    show (((st.createTradingSignal s now).1.tradingSignals).find?
        (fun g => g.id == st.currentSignalId)).map (fun g => g.whatsappSent)
      = some false
    rw [hfind1, hsig]
    rfl

/-- Witness for C1: the seeded store with one active subscriber; a
confidence-95 signal fans out to exactly that subscriber and is marked
sent, and a confidence-70 signal triggers nothing. -/
theorem signal_fanout_confidence_gate_witness :
    ((95 : Int) ≥ 90 ∧
      (AISignalsService.handleGeneratedSignal
          (MemStorage.initStorage.addWhatsappUser "9876543210" 0).1
          ⟨"CALL", "19850", "75.00", "25.00", 95, "r", 7, true, false⟩ 3).2.1
        = (MemStorage.initStorage.addWhatsappUser "9876543210" 0).1.getAllWhatsappUsers.map
            (fun u =>
              { phoneNumber := u.phoneNumber, signalId := 1,
                payload := { type := "CALL", strikePrice := "19850",
                             confidence := 95, targetPrice := "75.00",
                             stopLoss := "25.00", reasoning := "r" } })) ∧
    ((70 : Int) < 90 ∧
      (AISignalsService.handleGeneratedSignal
          (MemStorage.initStorage.addWhatsappUser "9876543210" 0).1
          ⟨"PUT", "19800", "60.00", "20.00", 70, "r2", 7, true, false⟩ 3).2.1 = []) := by
  have hfresh : ∀ g ∈ (MemStorage.initStorage.addWhatsappUser "9876543210" 0).1.tradingSignals,
      g.id ≠ (MemStorage.initStorage.addWhatsappUser "9876543210" 0).1.currentSignalId := by
    intro g hg
    simp [MemStorage.initStorage, MemStorage.emptyStorage, MemStorage.createUser,
      MemStorage.addWhatsappUser] at hg
  refine ⟨⟨by norm_num, ?_⟩, ⟨by norm_num, ?_⟩⟩
  · exact ((signal_fanout_confidence_gate _
      ⟨"CALL", "19850", "75.00", "25.00", 95, "r", 7, true, false⟩ 3 hfresh).1
        (by norm_num)).1
  · exact ((signal_fanout_confidence_gate _
      ⟨"PUT", "19800", "60.00", "20.00", 70, "r2", 7, true, false⟩ 3 hfresh).2
        (by norm_num)).1

/-- C5 evaluated at the failing input: with no credentials configured
(the synthetic fallback path), requesting the options chain for the five
strikes the route and the generator use returns the fixed NIFTY-quote
mock object - whose single key is "256265" - and NOT an entry per
requested strike: every one of the five strikes is missing from the
response. The chain endpoint string starts with "/quote?i=", so
`getMockData` takes its `includes("quote")` branch; the strike-keyed
`generateMockOptionsChain` sits behind the later `includes("instruments")`
test and is unreachable from `getOptionsChain`. -/
theorem optionsChain_fallback_missing_strikes :
    (ZerodhaService.getOptionsChain "" "" ZerodhaService.ZNetOutcome.fetchError
        (fun _ => (⟨0, 0, 0, 0⟩, ⟨0, 0, 0, 0⟩)) "25" "1009"
        [19750, 19800, 19850, 19900, 19950] = ZerodhaService.mockNiftyQuote) ∧
    ([19750, 19800, 19850, 19900, 19950].all (fun k =>
        !(ZerodhaService.hasEntryForStrike ZerodhaService.mockNiftyQuote k)) = true) := by
  refine ⟨rfl, by decide⟩
